import Mathlib

/-!
Verification model of `trading_bot.py`, a Binance Futures testnet trading
bot.  The file embeds, as pure Lean functions, the order-validation,
order-building and workflow-orchestration logic of the source:

* `validate_inputs`            — `TradingBotCLI.validate_inputs` (lines 322-340)
* `get_symbol_info`            — `TradingBot.get_symbol_info` (lines 82-107)
* `marketOrderParams` etc.     — the parameter dictionaries passed to
  `client.futures_create_order` by `TradingBot.place_market_order`
  (135-140), `place_limit_order` (174-181), `place_stop_limit_order` (218-226)
* `market_order_menu` etc.     — the interactive menu handlers (342-439)
* `setup_bot`, `main_menu`     — the interactive CLI entry (302-320, 482-514)
* `pyMain`, `batchBody`        — the flag-driven batch path of `main` (517-567)

External effects are modelled by making their results inputs: the result of
the Python builtin `float` applied to a user text is an `Option PyFloat`
(`none` when `float` raises `ValueError`), where `PyFloat` is either an
exact rational value or one of the special values nan, inf, -inf that
`float` also accepts (from texts such as `nan` or `inf`); comparisons on
`PyFloat` follow IEEE semantics, in particular every comparison involving
nan is False, which is what lets such a text slip through the
non-positivity checks of the source.  The result of each network call of
the Binance client is an `Except String` value (`error` when the call
raises); reference prices returned by the exchange are numeric and are
modelled as exact rationals.  String handling models the ASCII behaviour
of the Python `str` methods `strip`, `lower` and `upper`, which is the
character set all tokens compared by the code (`y`, `BUY`, `SELL`, order
types) live in.  Workflow runs record the list of exchange-facing calls
(`Event`) made by the workflow together with its final outcome.
-/

namespace TradingBot

/-- Python `str.strip()` on ASCII input: drop whitespace from both ends. -/
def pyStrip (s : String) : String :=
  ⟨(((s.data.dropWhile Char.isWhitespace).reverse).dropWhile Char.isWhitespace).reverse⟩

/-- Python `str.lower()` on ASCII input. -/
def pyLower (s : String) : String :=
  ⟨s.data.map Char.toLower⟩

/-- Python `str.upper()` on ASCII input. -/
def pyUpper (s : String) : String :=
  ⟨s.data.map Char.toUpper⟩

/-- The value of a successful call of the Python builtin `float`: either an
ordinary numeric value, modelled as an exact rational, or one of the IEEE
special values nan, inf, -inf, which `float` also accepts (the texts `nan`,
`inf`, `-inf` and their variants parse without error).  The code only ever
compares these values and passes them along, so the embedding carries no
rounding concerns. -/
inductive PyFloat where
  | num (q : ℚ)
  | nan
  | inf
  | negInf
deriving DecidableEq, Repr

/-- The Python comparison `x <= 0` on a `float` result.  Every comparison
involving nan is False in IEEE arithmetic, so nan — like inf — passes a
`<= 0` guard; -inf fails it. -/
def PyFloat.le0 : PyFloat → Bool
  | .num q => decide (q ≤ 0)
  | .nan => false
  | .inf => false
  | .negInf => true

/-- The Python comparison `x <= y` between `float` results: False whenever
either side is nan, otherwise the extended-real order. -/
def PyFloat.le : PyFloat → PyFloat → Bool
  | .num a, .num b => decide (a ≤ b)
  | .nan, _ => false
  | _, .nan => false
  | .negInf, _ => true
  | _, .inf => true
  | .inf, .num _ => false
  | .inf, .negInf => false
  | .num _, .negInf => false

/-- The Python comparison `x >= y` between `float` results: for floats it
is `y <= x`, with nan making every comparison False. -/
def PyFloat.ge (x y : PyFloat) : Bool :=
  PyFloat.le y x

/-- Python truthiness of a `float` result: exactly zero is falsy; every
other value, nan and the infinities included, is truthy. -/
def PyFloat.truthy : PyFloat → Bool
  | .num q => decide (q ≠ 0)
  | _ => true

/-- The order object returned by `client.futures_create_order`; only the
fields the workflows read afterwards (`orderId`, `status`) are kept. -/
structure OrderResult where
  orderId : Nat
  status : String
deriving DecidableEq, Repr

/-- The keyword-argument dictionary a `place_*_order` method passes to
`client.futures_create_order`.  `orderKind` is the dictionary entry named
`type` in the source; absent dictionary entries are `none`.  Quantities and
prices are the `float` values the caller hands over, unchanged. -/
structure ExchangeOrderParams where
  symbol : String
  side : String
  orderKind : String
  quantity : PyFloat
  price : Option PyFloat
  stopPrice : Option PyFloat
  timeInForce : Option String
deriving DecidableEq, Repr

/-- Parameters built by `TradingBot.place_market_order` (source lines
135-140): symbol and side uppercased, `type=MARKET` (the value of
`Client.ORDER_TYPE_MARKET`), no price, stop price or time-in-force entry. -/
def marketOrderParams (symbol side : String) (quantity : PyFloat) : ExchangeOrderParams :=
  { symbol := pyUpper symbol
    side := pyUpper side
    orderKind := "MARKET"
    quantity := quantity
    price := none
    stopPrice := none
    timeInForce := none }

/-- Parameters built by `TradingBot.place_limit_order` (source lines
174-181): `type=LIMIT`, limit price, `timeInForce=GTC` (the value of
`Client.TIME_IN_FORCE_GTC`). -/
def limitOrderParams (symbol side : String) (quantity price : PyFloat) : ExchangeOrderParams :=
  { symbol := pyUpper symbol
    side := pyUpper side
    orderKind := "LIMIT"
    quantity := quantity
    price := some price
    stopPrice := none
    timeInForce := some "GTC" }

/-- Parameters built by `TradingBot.place_stop_limit_order` (source lines
218-226): wire type is the literal string `STOP`, with `stopPrice`, limit
`price` and `timeInForce=GTC`. -/
def stopLimitOrderParams (symbol side : String) (quantity stopPrice limitPrice : PyFloat) :
    ExchangeOrderParams :=
  { symbol := pyUpper symbol
    side := pyUpper side
    orderKind := "STOP"
    quantity := quantity
    price := some limitPrice
    stopPrice := some stopPrice
    timeInForce := some "GTC" }

/-- Exchange-facing calls (and the confirmation prompt) a workflow makes,
in order. -/
inductive Event where
  | getPrice (symbol : String)
  | askConfirm
  | submitOrder (params : ExchangeOrderParams)
  | getAccount
  | getOpenOrders
deriving DecidableEq, Repr

/-- Final outcome of one workflow run.  `completed` means
`display_order_details` was reached with the returned order; `cancelled` is
the interactive decline branch (`Order cancelled.`); `errorMsg` is the
`except` clause printing `Error: ...`; `abortMsg` is a batch-path
`print(...); return`. -/
inductive Outcome where
  | completed (order : OrderResult)
  | cancelled
  | errorMsg (msg : String)
  | abortMsg (msg : String)
deriving DecidableEq, Repr

/-- One workflow run: the calls it made and how it ended. -/
structure MenuRun where
  events : List Event
  outcome : Outcome
deriving DecidableEq, Repr

/-- Whether an event is a call to `client.futures_create_order`. -/
def Event.isSubmit : Event → Bool
  | .submitOrder _ => true
  | _ => false

/-- Number of submission calls a run made. -/
def MenuRun.submitCount (r : MenuRun) : Nat :=
  (r.events.filter Event.isSubmit).length

/-- Shared tail of every workflow that reaches its `place_*_order` call:
the order is submitted exactly once; on success the order details are
displayed, on a raised exception the enclosing handler prints the error.
There is no retry in any `place_*_order` method — each calls
`futures_create_order` once and re-raises every exception. -/
def submitStep (params : ExchangeOrderParams) (result : Except String OrderResult)
    (pre : List Event) : MenuRun :=
  match result with
  | .ok o => ⟨pre ++ [.submitOrder params], .completed o⟩
  | .error e => ⟨pre ++ [.submitOrder params], .errorMsg e⟩

/-- Symbol metadata entry of `client.futures_exchange_info()`; only the
fields `get_symbol_info` reads are kept. -/
structure SymbolInfo where
  symbol : String
  status : String
deriving DecidableEq, Repr

/-- `TradingBot.get_symbol_info` (source lines 82-107): linear scan of the
exchange metadata for the uppercased symbol, then a tradability check on
its `status` field.  Both failure branches raise `ValueError` with the
messages modelled here (surrounding quote characters of the Python message
elided). -/
def get_symbol_info (exchangeSymbols : List SymbolInfo) (symbol : String) :
    Except String SymbolInfo :=
  match exchangeSymbols.find? (fun s => s.symbol == pyUpper symbol) with
  | none => .error ("Symbol " ++ symbol ++ " not found")
  | some si =>
    if si.status ≠ "TRADING" then
      .error ("Symbol " ++ symbol ++ " is not available for trading")
    else
      .ok si

/-- `TradingBotCLI.validate_inputs` (source lines 322-340).  `qtyParse` is
the result of `float(quantity)` (`none` when `float` raises `ValueError`).
Two Python subtleties are embedded faithfully.  First, the
`ValueError("Quantity must be positive")` raised inside the `try` block for
a non-positive parsed value is caught by the `except ValueError` clause of
that same block, so the caller observes `Invalid quantity format` in that
case as well.  Second, the guard is the comparison `qty <= 0`, which is
False for nan and inf, so the texts `nan` and `inf` parse and pass the
validation unflagged.  Quote characters of the Python side message are
elided. -/
def validate_inputs (symbol side : String) (qtyParse : Option PyFloat) :
    Except String (String × String × PyFloat) :=
  if symbol = "" then
    .error "Symbol is required"
  else if pyUpper side = "BUY" ∨ pyUpper side = "SELL" then
    match qtyParse with
    | none => .error "Invalid quantity format"
    | some q =>
      if q.le0 then .error "Invalid quantity format"
      else .ok (pyUpper symbol, pyUpper side, q)
  else
    .error "Side must be BUY or SELL"

/-- Inputs of one run of `TradingBotCLI.market_order_menu`: the stripped
user texts, the `float` parse of the quantity text, and the results of the
two external calls the handler can make. -/
structure MarketMenuInput where
  symbol : String
  side : String
  qtyParse : Option PyFloat
  priceFetch : Except String ℚ
  confirm : String
  submitResult : Except String OrderResult

/-- `TradingBotCLI.market_order_menu` (source lines 342-367): validate the
inputs, fetch the current price for reference, ask for confirmation, and
submit only on a confirmation text whose stripped lowercase form is `y`. -/
def market_order_menu (inp : MarketMenuInput) : MenuRun :=
  match validate_inputs (pyStrip inp.symbol) (pyStrip inp.side) inp.qtyParse with
  | .error e => ⟨[], .errorMsg e⟩
  | .ok (symbol, side, qty) =>
    match inp.priceFetch with
    | .error e => ⟨[.getPrice symbol], .errorMsg e⟩
    | .ok _ =>
      if pyLower (pyStrip inp.confirm) = "y" then
        submitStep (marketOrderParams symbol side qty) inp.submitResult
          [.getPrice symbol, .askConfirm]
      else
        ⟨[.getPrice symbol, .askConfirm], .cancelled⟩

/-- Inputs of one run of `TradingBotCLI.limit_order_menu`; `priceParse` is
the `float` parse of the limit-price text. -/
structure LimitMenuInput where
  symbol : String
  side : String
  qtyParse : Option PyFloat
  priceParse : Option PyFloat
  priceFetch : Except String ℚ
  confirm : String
  submitResult : Except String OrderResult

/-- `TradingBotCLI.limit_order_menu` (source lines 369-402).  The limit
price has the same try/except shape as the quantity in `validate_inputs`:
a parse failure and a value with `<= 0` True both surface as
`Invalid price format`, while nan and inf pass the guard. -/
def limit_order_menu (inp : LimitMenuInput) : MenuRun :=
  match validate_inputs (pyStrip inp.symbol) (pyStrip inp.side) inp.qtyParse with
  | .error e => ⟨[], .errorMsg e⟩
  | .ok (symbol, side, qty) =>
    match inp.priceParse with
    | none => ⟨[], .errorMsg "Invalid price format"⟩
    | some p =>
      if p.le0 then ⟨[], .errorMsg "Invalid price format"⟩
      else
        match inp.priceFetch with
        | .error e => ⟨[.getPrice symbol], .errorMsg e⟩
        | .ok _ =>
          if pyLower (pyStrip inp.confirm) = "y" then
            submitStep (limitOrderParams symbol side qty p) inp.submitResult
              [.getPrice symbol, .askConfirm]
          else
            ⟨[.getPrice symbol, .askConfirm], .cancelled⟩

/-- Inputs of one run of `TradingBotCLI.stop_limit_order_menu`;
`stopParse` and `limitParse` are the `float` parses of the stop-price and
limit-price texts. -/
structure StopLimitMenuInput where
  symbol : String
  side : String
  qtyParse : Option PyFloat
  stopParse : Option PyFloat
  limitParse : Option PyFloat
  priceFetch : Except String ℚ
  confirm : String
  submitResult : Except String OrderResult

/-- `TradingBotCLI.stop_limit_order_menu` (source lines 404-439).  The
handler checks only `stop_px <= 0 or limit_px <= 0` on the two prices (a
guard nan and inf pass); it performs no directional comparison of the stop
price against the fetched reference price — the fetched price is printed
for reference and otherwise unused. -/
def stop_limit_order_menu (inp : StopLimitMenuInput) : MenuRun :=
  match validate_inputs (pyStrip inp.symbol) (pyStrip inp.side) inp.qtyParse with
  | .error e => ⟨[], .errorMsg e⟩
  | .ok (symbol, side, qty) =>
    match inp.stopParse with
    | none => ⟨[], .errorMsg "Invalid price format"⟩
    | some sp =>
      match inp.limitParse with
      | none => ⟨[], .errorMsg "Invalid price format"⟩
      | some lp =>
        if sp.le0 || lp.le0 then ⟨[], .errorMsg "Invalid price format"⟩
        else
          match inp.priceFetch with
          | .error e => ⟨[.getPrice symbol], .errorMsg e⟩
          | .ok _ =>
            if pyLower (pyStrip inp.confirm) = "y" then
              submitStep (stopLimitOrderParams symbol side qty sp lp) inp.submitResult
                [.getPrice symbol, .askConfirm]
            else
              ⟨[.getPrice symbol, .askConfirm], .cancelled⟩

/-- `TradingBotCLI.setup_bot` (source lines 302-320): the interactively
entered credentials are stripped and the setup fails when either is blank.
`TradingBot.__init__` itself is modelled as succeeding, since its
`test_connection` catches every exception and merely logs. -/
def setup_bot (api_key api_secret : String) : Bool :=
  (pyStrip api_key != "") && (pyStrip api_secret != "")

/-- One selected action of the interactive main-menu loop (source lines
482-514), with the inputs of the handler it dispatches to. -/
inductive MenuChoice where
  | marketOrder (inp : MarketMenuInput)
  | limitOrder (inp : LimitMenuInput)
  | stopLimitOrder (inp : StopLimitMenuInput)
  | viewAccount
  | viewOrders
  | invalidOption (choice : String)

/-- Exchange-facing calls made by one menu choice. -/
def choiceEvents : MenuChoice → List Event
  | .marketOrder i => (market_order_menu i).events
  | .limitOrder i => (limit_order_menu i).events
  | .stopLimitOrder i => (stop_limit_order_menu i).events
  | .viewAccount => [.getAccount]
  | .viewOrders => [.getOpenOrders]
  | .invalidOption _ => []

/-- `TradingBotCLI.main_menu` (source lines 482-514): when `setup_bot`
fails the method returns at once and no menu action runs; otherwise the
loop serves the selected actions until the operator exits.  The run is
summarised by the exchange-facing calls it makes. -/
def main_menu (api_key api_secret : String) (choices : List MenuChoice) : List Event :=
  if setup_bot api_key api_secret then (choices.map choiceEvents).flatten else []

/-- Argument destinations registered by the six `parser.add_argument`
calls in `main` (source lines 521-526); argparse stores the flag
`--stop-price` under the destination `stop_price`. -/
def parserDests : List String :=
  ["symbol", "side", "type", "quantity", "price", "stop_price"]

/-- Attribute lookup on the argparse `Namespace` built by `main`: a name
not registered by `add_argument` raises `AttributeError`, which is what
the accesses `args.api_key` and `args.api_secret` at source line 535 do
(quote characters of the Python message elided). -/
def namespaceGetAttr (name : String) : Except String Unit :=
  if name ∈ parserDests then .ok ()
  else .error ("Namespace object has no attribute " ++ name)

/-- Inputs of the batch (flag-driven) body of `main`: the flag values the
truthiness gate guarantees present, the two optional price flags (parsed by
argparse with `type=float`, so nan and the infinities are admissible
values), and the results of the external calls the body can make. -/
structure BatchInput where
  symbol : String
  side : String
  orderKind : String
  quantity : PyFloat
  price : Option PyFloat
  stop_price : Option PyFloat
  priceFetch : Except String ℚ
  submitResult : Except String OrderResult

/-- The order dispatch of the batch body (source lines 537-558), i.e. the
code that would run after a successful `TradingBot` construction: dispatch
on `--type`; for LIMIT and STOP_LIMIT a falsy (absent or zero) price flag
prints a requirement message and returns; for STOP_LIMIT the current price
is fetched and the stop price must compare strictly above (BUY) or
strictly below (SELL) it — the comparisons are Python float comparisons,
False for nan — otherwise a directional message is printed and the body
returns without submitting.  The final branch is unreachable for values
argparse admits, since `choices` restricts `--type`. -/
def batchOrderDispatch (b : BatchInput) : MenuRun :=
  if b.orderKind = "MARKET" then
    submitStep (marketOrderParams b.symbol b.side b.quantity) b.submitResult []
  else if b.orderKind = "LIMIT" then
    match b.price with
    | none => ⟨[], .abortMsg "Price is required for limit orders"⟩
    | some p =>
      if p.truthy then
        submitStep (limitOrderParams b.symbol b.side b.quantity p) b.submitResult []
      else ⟨[], .abortMsg "Price is required for limit orders"⟩
  else if b.orderKind = "STOP_LIMIT" then
    match b.price, b.stop_price with
    | none, _ => ⟨[], .abortMsg "Both price and stop-price are required for stop-limit orders"⟩
    | _, none => ⟨[], .abortMsg "Both price and stop-price are required for stop-limit orders"⟩
    | some p, some sp =>
      if p.truthy && sp.truthy then
        match b.priceFetch with
        | .error e => ⟨[.getPrice b.symbol], .errorMsg e⟩
        | .ok ref =>
          if b.side = "BUY" ∧ PyFloat.le sp (.num ref) = true then
            ⟨[.getPrice b.symbol],
              .abortMsg "Stop price must be ABOVE current price for a BUY stop-limit order"⟩
          else if b.side = "SELL" ∧ PyFloat.ge sp (.num ref) = true then
            ⟨[.getPrice b.symbol],
              .abortMsg "Stop price must be BELOW current price for a SELL stop-limit order"⟩
          else
            submitStep (stopLimitOrderParams b.symbol b.side b.quantity sp p) b.submitResult
              [.getPrice b.symbol]
      else
        ⟨[], .abortMsg "Both price and stop-price are required for stop-limit orders"⟩
  else
    ⟨[], .errorMsg "name order is not defined"⟩

/-- The whole batch body of `main` (source lines 534-563), inside its
`try`: the first statement evaluates `args.api_key` and `args.api_secret`
to construct the `TradingBot`; the parser registers neither destination, so
the lookup raises and the `except` clause prints the error before any
dispatch. -/
def batchBody (b : BatchInput) : MenuRun :=
  match namespaceGetAttr "api_key" with
  | .error e => ⟨[], .errorMsg e⟩
  | .ok _ =>
    match namespaceGetAttr "api_secret" with
    | .error e => ⟨[], .errorMsg e⟩
    | .ok _ => batchOrderDispatch b

/-- The two environment values read by `main` (source lines 529-530);
`none` models an unset variable. -/
structure Env where
  api_key : Option String
  api_secret : Option String

/-- The argparse result of `main`: every flag is optional at parse time,
and the three numeric flags are parsed with `type=float`. -/
structure ArgsOpt where
  symbol : Option String
  side : Option String
  orderKind : Option String
  quantity : Option PyFloat
  price : Option PyFloat
  stop_price : Option PyFloat

/-- How a run of `main` proceeds after the mode decision. -/
inductive MainResult where
  | batchRun (run : MenuRun)
  | interactive
deriving DecidableEq, Repr

/-- `main` (source lines 517-567): the gate
`all([api_key, api_secret, args.symbol, args.side, args.type,
args.quantity])` is Python truthiness — an unset value, an empty string and
a float quantity equal to zero are falsy, while nan and the infinities are
truthy.  When the gate passes the batch body runs; otherwise the
interactive CLI is launched. -/
def pyMain (env : Env) (args : ArgsOpt) (priceFetch : Except String ℚ)
    (submitResult : Except String OrderResult) : MainResult :=
  match env.api_key, env.api_secret, args.symbol, args.side, args.orderKind, args.quantity with
  | some k, some sec, some sym, some sd, some ty, some q =>
    if k ≠ "" ∧ sec ≠ "" ∧ sym ≠ "" ∧ sd ≠ "" ∧ ty ≠ "" ∧ q.truthy = true then
      .batchRun (batchBody ⟨sym, sd, ty, q, args.price, args.stop_price, priceFetch, submitResult⟩)
    else
      .interactive
  | _, _, _, _, _, _ => .interactive


/-- Events produced by a run that reaches the submission call. -/
theorem submitStep_events (params : ExchangeOrderParams) (res : Except String OrderResult)
    (pre : List Event) :
    (submitStep params res pre).events = pre ++ [.submitOrder params] := by
  cases res <;> rfl

/-- A run that reaches the submission call submits exactly once more than
the prefix did, whatever the exchange answers. -/
theorem submitStep_count (params : ExchangeOrderParams) (res : Except String OrderResult)
    (pre : List Event) :
    (submitStep params res pre).submitCount = (pre.filter Event.isSubmit).length + 1 := by
  cases res <;>
    simp [submitStep, MenuRun.submitCount, List.filter_append, Event.isSubmit]

/-- Validation success forces a parsed quantity that passes the `<= 0`
guard (a positive number, nan or inf). -/
theorem validate_inputs_ok_qty (s sd : String) (p : Option PyFloat)
    (v : String × String × PyFloat)
    (h : validate_inputs s sd p = .ok v) : ∃ q0, p = some q0 ∧ q0.le0 = false := by
  unfold validate_inputs at h
  split at h
  · exact absurd h (by simp)
  · split at h
    · cases p with
      | none => exact absurd h (by simp)
      | some q0 =>
        simp only [] at h
        split at h
        · exact absurd h (by simp)
        · rename_i hq0
          exact ⟨q0, rfl, by simpa using hq0⟩
    · exact absurd h (by simp)

/-- Shape of a market-menu run that reaches the confirmation gate. -/
theorem market_menu_gate_run (m : MarketMenuInput) (sym sd : String) (q : PyFloat) (r : ℚ)
    (hv : validate_inputs (pyStrip m.symbol) (pyStrip m.side) m.qtyParse = .ok (sym, sd, q))
    (hp : m.priceFetch = .ok r) :
    market_order_menu m =
      if pyLower (pyStrip m.confirm) = "y" then
        submitStep (marketOrderParams sym sd q) m.submitResult [.getPrice sym, .askConfirm]
      else
        ⟨[.getPrice sym, .askConfirm], .cancelled⟩ := by
  simp only [market_order_menu, hv, hp]

/-- Shape of a limit-menu run that reaches the confirmation gate. -/
theorem limit_menu_gate_run (l : LimitMenuInput) (sym sd : String) (q p : PyFloat) (r : ℚ)
    (hv : validate_inputs (pyStrip l.symbol) (pyStrip l.side) l.qtyParse = .ok (sym, sd, q))
    (hpp : l.priceParse = some p) (hpos : ¬p.le0 = true)
    (hf : l.priceFetch = .ok r) :
    limit_order_menu l =
      if pyLower (pyStrip l.confirm) = "y" then
        submitStep (limitOrderParams sym sd q p) l.submitResult [.getPrice sym, .askConfirm]
      else
        ⟨[.getPrice sym, .askConfirm], .cancelled⟩ := by
  simp only [limit_order_menu, hv, hpp, hf, if_neg hpos]

/-- Shape of a stop-limit-menu run that reaches the confirmation gate. -/
theorem stop_limit_menu_gate_run (i : StopLimitMenuInput) (sym sd : String)
    (q sp lp : PyFloat) (r : ℚ)
    (hv : validate_inputs (pyStrip i.symbol) (pyStrip i.side) i.qtyParse = .ok (sym, sd, q))
    (hsp : i.stopParse = some sp) (hlp : i.limitParse = some lp)
    (hpos : ¬(sp.le0 || lp.le0) = true)
    (hf : i.priceFetch = .ok r) :
    stop_limit_order_menu i =
      if pyLower (pyStrip i.confirm) = "y" then
        submitStep (stopLimitOrderParams sym sd q sp lp) i.submitResult
          [.getPrice sym, .askConfirm]
      else
        ⟨[.getPrice sym, .askConfirm], .cancelled⟩ := by
  simp only [stop_limit_order_menu, hv, hsp, hlp, hf, if_neg hpos]

/-- C5: the Order Builder is a pure mapping of the validated request:
identical inputs yield identical exchange parameters, the MARKET parameter
set carries no price and no stop-price entry, the LIMIT and STOP_LIMIT
parameter sets always carry timeInForce GTC, and the stop-limit request is
sent with wire type STOP. -/
theorem C5_order_builder_pure_and_param_shapes
    (s1 s2 sd1 sd2 : String) (q1 q2 p1 p2 sp1 sp2 : PyFloat)
    (hs : s1 = s2) (hsd : sd1 = sd2) (hq : q1 = q2) (hp : p1 = p2) (hsp : sp1 = sp2) :
    marketOrderParams s1 sd1 q1 = marketOrderParams s2 sd2 q2 ∧
    limitOrderParams s1 sd1 q1 p1 = limitOrderParams s2 sd2 q2 p2 ∧
    stopLimitOrderParams s1 sd1 q1 sp1 p1 = stopLimitOrderParams s2 sd2 q2 sp2 p2 ∧
    (marketOrderParams s1 sd1 q1).price = none ∧
    (marketOrderParams s1 sd1 q1).stopPrice = none ∧
    (marketOrderParams s1 sd1 q1).timeInForce = none ∧
    (limitOrderParams s1 sd1 q1 p1).timeInForce = some "GTC" ∧
    (stopLimitOrderParams s1 sd1 q1 sp1 p1).timeInForce = some "GTC" ∧
    (stopLimitOrderParams s1 sd1 q1 sp1 p1).orderKind = "STOP" := by
  subst hs hsd hq hp hsp
  exact ⟨rfl, rfl, rfl, rfl, rfl, rfl, rfl, rfl, rfl⟩

/-- Witness for C5 at a concrete request. -/
theorem C5_order_builder_pure_and_param_shapes_witness :
    marketOrderParams "BTCUSDT" "BUY" (.num 1) = marketOrderParams "BTCUSDT" "BUY" (.num 1) ∧
    limitOrderParams "BTCUSDT" "BUY" (.num 1) (.num 30000) =
      limitOrderParams "BTCUSDT" "BUY" (.num 1) (.num 30000) ∧
    stopLimitOrderParams "BTCUSDT" "BUY" (.num 1) (.num 31000) (.num 30000) =
      stopLimitOrderParams "BTCUSDT" "BUY" (.num 1) (.num 31000) (.num 30000) ∧
    (marketOrderParams "BTCUSDT" "BUY" (.num 1)).price = none ∧
    (marketOrderParams "BTCUSDT" "BUY" (.num 1)).stopPrice = none ∧
    (marketOrderParams "BTCUSDT" "BUY" (.num 1)).timeInForce = none ∧
    (limitOrderParams "BTCUSDT" "BUY" (.num 1) (.num 30000)).timeInForce = some "GTC" ∧
    (stopLimitOrderParams "BTCUSDT" "BUY" (.num 1) (.num 31000)
      (.num 30000)).timeInForce = some "GTC" ∧
    (stopLimitOrderParams "BTCUSDT" "BUY" (.num 1) (.num 31000)
      (.num 30000)).orderKind = "STOP" :=
  C5_order_builder_pure_and_param_shapes "BTCUSDT" "BTCUSDT" "BUY" "BUY"
    (.num 1) (.num 1) (.num 30000) (.num 30000) (.num 31000) (.num 31000)
    rfl rfl rfl rfl rfl

/-- C10: a quantity text that parses to a non-positive number surfaces the
parse-failure message Invalid quantity format, because the positivity
error raised inside the try block is caught by the same except clause;
the distinct positivity message is never observable from
validate_inputs. -/
theorem C10_nonpositive_quantity_gets_format_message (s sd : String) (q : ℚ)
    (p : Option PyFloat)
    (hs : s ≠ "") (hsd : pyUpper sd = "BUY" ∨ pyUpper sd = "SELL") (hq : q ≤ 0) :
    validate_inputs s sd (some (.num q)) = .error "Invalid quantity format" ∧
    validate_inputs s sd p ≠ .error "Quantity must be positive" := by
  constructor
  · simp [validate_inputs, hs, hsd, PyFloat.le0, hq]
  · intro hbad
    unfold validate_inputs at hbad
    repeat' split at hbad
    all_goals simp_all

/-- Witness for C10 at quantity value -1. -/
theorem C10_nonpositive_quantity_gets_format_message_witness :
    validate_inputs "BTCUSDT" "buy" (some (.num (-1))) = .error "Invalid quantity format" ∧
    validate_inputs "BTCUSDT" "buy" (some (.num (-1))) ≠ .error "Quantity must be positive" :=
  C10_nonpositive_quantity_gets_format_message "BTCUSDT" "buy" (-1) (some (.num (-1)))
    (by decide) (by decide) (by norm_num)

/-- C9: in each interactive order workflow that reaches the confirmation
gate, the order is submitted if and only if the confirmation text, after
stripping surrounding whitespace and lowercasing, is exactly the string y;
in particular the text yes counts as a decline. -/
theorem C9_confirmation_is_exact_y
    (m : MarketMenuInput) (l : LimitMenuInput) (sl : StopLimitMenuInput)
    (msym msd lsym lsd ssym ssd : String) (mq lq sq lp ssp slp : PyFloat) (mr lr sr : ℚ)
    (hmv : validate_inputs (pyStrip m.symbol) (pyStrip m.side) m.qtyParse = .ok (msym, msd, mq))
    (hmp : m.priceFetch = .ok mr)
    (hlv : validate_inputs (pyStrip l.symbol) (pyStrip l.side) l.qtyParse = .ok (lsym, lsd, lq))
    (hlp : l.priceParse = some lp) (hlpos : ¬lp.le0 = true)
    (hlf : l.priceFetch = .ok lr)
    (hsv : validate_inputs (pyStrip sl.symbol) (pyStrip sl.side) sl.qtyParse = .ok (ssym, ssd, sq))
    (hssp : sl.stopParse = some ssp) (hslp : sl.limitParse = some slp)
    (hspos : ¬(ssp.le0 || slp.le0) = true)
    (hsf : sl.priceFetch = .ok sr) :
    ((∃ pms, Event.submitOrder pms ∈ (market_order_menu m).events) ↔
      pyLower (pyStrip m.confirm) = "y") ∧
    ((∃ pms, Event.submitOrder pms ∈ (limit_order_menu l).events) ↔
      pyLower (pyStrip l.confirm) = "y") ∧
    ((∃ pms, Event.submitOrder pms ∈ (stop_limit_order_menu sl).events) ↔
      pyLower (pyStrip sl.confirm) = "y") ∧
    pyLower (pyStrip "yes") ≠ "y" := by
  refine ⟨?_, ?_, ?_, by decide⟩
  · rw [market_menu_gate_run m msym msd mq mr hmv hmp]
    by_cases hy : pyLower (pyStrip m.confirm) = "y"
    · rw [if_pos hy]
      refine iff_of_true ?_ hy
      exact ⟨marketOrderParams msym msd mq, by rw [submitStep_events]; simp⟩
    · rw [if_neg hy]
      refine iff_of_false ?_ hy
      rintro ⟨pms, hmem⟩
      simp at hmem
  · rw [limit_menu_gate_run l lsym lsd lq lp lr hlv hlp hlpos hlf]
    by_cases hy : pyLower (pyStrip l.confirm) = "y"
    · rw [if_pos hy]
      refine iff_of_true ?_ hy
      exact ⟨limitOrderParams lsym lsd lq lp, by rw [submitStep_events]; simp⟩
    · rw [if_neg hy]
      refine iff_of_false ?_ hy
      rintro ⟨pms, hmem⟩
      simp at hmem
  · rw [stop_limit_menu_gate_run sl ssym ssd sq ssp slp sr hsv hssp hslp hspos hsf]
    by_cases hy : pyLower (pyStrip sl.confirm) = "y"
    · rw [if_pos hy]
      refine iff_of_true ?_ hy
      exact ⟨stopLimitOrderParams ssym ssd sq ssp slp, by rw [submitStep_events]; simp⟩
    · rw [if_neg hy]
      refine iff_of_false ?_ hy
      rintro ⟨pms, hmem⟩
      simp at hmem

/-- Witness for C9: a confirmed market order, an upper-case Y limit
confirmation, and a stop-limit declined with the text yes. -/
theorem C9_confirmation_is_exact_y_witness :
    ((∃ pms, Event.submitOrder pms ∈
        (market_order_menu ⟨"BTCUSDT", "buy", some (.num 1), .ok 50000, "y",
          .ok ⟨1, "NEW"⟩⟩).events) ↔
      pyLower (pyStrip "y") = "y") ∧
    ((∃ pms, Event.submitOrder pms ∈
        (limit_order_menu ⟨"BTCUSDT", "buy", some (.num 1), some (.num 30000), .ok 50000,
          " Y ", .ok ⟨2, "NEW"⟩⟩).events) ↔
      pyLower (pyStrip " Y ") = "y") ∧
    ((∃ pms, Event.submitOrder pms ∈
        (stop_limit_order_menu ⟨"BTCUSDT", "sell", some (.num 1), some (.num 40000),
          some (.num 39900), .ok 50000, "yes", .ok ⟨3, "NEW"⟩⟩).events) ↔
      pyLower (pyStrip "yes") = "y") ∧
    pyLower (pyStrip "yes") ≠ "y" :=
  C9_confirmation_is_exact_y
    ⟨"BTCUSDT", "buy", some (.num 1), .ok 50000, "y", .ok ⟨1, "NEW"⟩⟩
    ⟨"BTCUSDT", "buy", some (.num 1), some (.num 30000), .ok 50000, " Y ", .ok ⟨2, "NEW"⟩⟩
    ⟨"BTCUSDT", "sell", some (.num 1), some (.num 40000), some (.num 39900), .ok 50000,
      "yes", .ok ⟨3, "NEW"⟩⟩
    "BTCUSDT" "BUY" "BTCUSDT" "BUY" "BTCUSDT" "SELL"
    (.num 1) (.num 1) (.num 1) (.num 30000) (.num 40000) (.num 39900) 50000 50000 50000
    rfl rfl rfl rfl (by norm_num [PyFloat.le0]) rfl rfl rfl rfl
    (by norm_num [PyFloat.le0]) rfl

/-- C6: in each interactive order workflow that reaches the confirmation
gate, a declined confirmation results in zero submission calls and the
order-cancelled outcome. -/
theorem C6_decline_zero_submissions
    (m : MarketMenuInput) (l : LimitMenuInput) (sl : StopLimitMenuInput)
    (msym msd lsym lsd ssym ssd : String) (mq lq sq lp ssp slp : PyFloat) (mr lr sr : ℚ)
    (hmv : validate_inputs (pyStrip m.symbol) (pyStrip m.side) m.qtyParse = .ok (msym, msd, mq))
    (hmp : m.priceFetch = .ok mr)
    (hmc : pyLower (pyStrip m.confirm) ≠ "y")
    (hlv : validate_inputs (pyStrip l.symbol) (pyStrip l.side) l.qtyParse = .ok (lsym, lsd, lq))
    (hlp : l.priceParse = some lp) (hlpos : ¬lp.le0 = true)
    (hlf : l.priceFetch = .ok lr)
    (hlc : pyLower (pyStrip l.confirm) ≠ "y")
    (hsv : validate_inputs (pyStrip sl.symbol) (pyStrip sl.side) sl.qtyParse = .ok (ssym, ssd, sq))
    (hssp : sl.stopParse = some ssp) (hslp : sl.limitParse = some slp)
    (hspos : ¬(ssp.le0 || slp.le0) = true)
    (hsf : sl.priceFetch = .ok sr)
    (hsc : pyLower (pyStrip sl.confirm) ≠ "y") :
    (market_order_menu m).submitCount = 0 ∧
    (market_order_menu m).outcome = .cancelled ∧
    (limit_order_menu l).submitCount = 0 ∧
    (limit_order_menu l).outcome = .cancelled ∧
    (stop_limit_order_menu sl).submitCount = 0 ∧
    (stop_limit_order_menu sl).outcome = .cancelled := by
  rw [market_menu_gate_run m msym msd mq mr hmv hmp,
    limit_menu_gate_run l lsym lsd lq lp lr hlv hlp hlpos hlf,
    stop_limit_menu_gate_run sl ssym ssd sq ssp slp sr hsv hssp hslp hspos hsf,
    if_neg hmc, if_neg hlc, if_neg hsc]
  refine ⟨?_, rfl, ?_, rfl, ?_, rfl⟩ <;>
    simp [MenuRun.submitCount, Event.isSubmit]

/-- Witness for C6: all three menus declined with the text n. -/
theorem C6_decline_zero_submissions_witness :
    (market_order_menu ⟨"BTCUSDT", "buy", some (.num 1), .ok 50000, "n",
      .ok ⟨1, "NEW"⟩⟩).submitCount = 0 ∧
    (market_order_menu ⟨"BTCUSDT", "buy", some (.num 1), .ok 50000, "n",
      .ok ⟨1, "NEW"⟩⟩).outcome = .cancelled ∧
    (limit_order_menu ⟨"BTCUSDT", "buy", some (.num 1), some (.num 30000), .ok 50000, "n",
      .ok ⟨2, "NEW"⟩⟩).submitCount = 0 ∧
    (limit_order_menu ⟨"BTCUSDT", "buy", some (.num 1), some (.num 30000), .ok 50000, "n",
      .ok ⟨2, "NEW"⟩⟩).outcome = .cancelled ∧
    (stop_limit_order_menu ⟨"BTCUSDT", "sell", some (.num 1), some (.num 40000),
      some (.num 39900), .ok 50000, "n", .ok ⟨3, "NEW"⟩⟩).submitCount = 0 ∧
    (stop_limit_order_menu ⟨"BTCUSDT", "sell", some (.num 1), some (.num 40000),
      some (.num 39900), .ok 50000, "n", .ok ⟨3, "NEW"⟩⟩).outcome = .cancelled :=
  C6_decline_zero_submissions
    ⟨"BTCUSDT", "buy", some (.num 1), .ok 50000, "n", .ok ⟨1, "NEW"⟩⟩
    ⟨"BTCUSDT", "buy", some (.num 1), some (.num 30000), .ok 50000, "n", .ok ⟨2, "NEW"⟩⟩
    ⟨"BTCUSDT", "sell", some (.num 1), some (.num 40000), some (.num 39900), .ok 50000, "n",
      .ok ⟨3, "NEW"⟩⟩
    "BTCUSDT" "BUY" "BTCUSDT" "BUY" "BTCUSDT" "SELL"
    (.num 1) (.num 1) (.num 1) (.num 30000) (.num 40000) (.num 39900) 50000 50000 50000
    rfl rfl (by decide) rfl rfl (by norm_num [PyFloat.le0]) rfl (by decide)
    rfl rfl rfl (by norm_num [PyFloat.le0]) rfl (by decide)

/-- C7: in each interactive order workflow, a confirmed order is submitted
exactly once, whatever the exchange answers — the submission result is
universally quantified, so the count is one also when the submission call
raises an exchange-side or transport error; no retry exists. -/
theorem C7_confirmed_submits_exactly_once
    (m : MarketMenuInput) (l : LimitMenuInput) (sl : StopLimitMenuInput)
    (msym msd lsym lsd ssym ssd : String) (mq lq sq lp ssp slp : PyFloat) (mr lr sr : ℚ)
    (hmv : validate_inputs (pyStrip m.symbol) (pyStrip m.side) m.qtyParse = .ok (msym, msd, mq))
    (hmp : m.priceFetch = .ok mr)
    (hmc : pyLower (pyStrip m.confirm) = "y")
    (hlv : validate_inputs (pyStrip l.symbol) (pyStrip l.side) l.qtyParse = .ok (lsym, lsd, lq))
    (hlp : l.priceParse = some lp) (hlpos : ¬lp.le0 = true)
    (hlf : l.priceFetch = .ok lr)
    (hlc : pyLower (pyStrip l.confirm) = "y")
    (hsv : validate_inputs (pyStrip sl.symbol) (pyStrip sl.side) sl.qtyParse = .ok (ssym, ssd, sq))
    (hssp : sl.stopParse = some ssp) (hslp : sl.limitParse = some slp)
    (hspos : ¬(ssp.le0 || slp.le0) = true)
    (hsf : sl.priceFetch = .ok sr)
    (hsc : pyLower (pyStrip sl.confirm) = "y") :
    (market_order_menu m).submitCount = 1 ∧
    (limit_order_menu l).submitCount = 1 ∧
    (stop_limit_order_menu sl).submitCount = 1 := by
  rw [market_menu_gate_run m msym msd mq mr hmv hmp,
    limit_menu_gate_run l lsym lsd lq lp lr hlv hlp hlpos hlf,
    stop_limit_menu_gate_run sl ssym ssd sq ssp slp sr hsv hssp hslp hspos hsf,
    if_pos hmc, if_pos hlc, if_pos hsc]
  refine ⟨?_, ?_, ?_⟩ <;>
    simp [submitStep_count, Event.isSubmit]

/-- Witness for C7: confirmed orders whose submission call raises. -/
theorem C7_confirmed_submits_exactly_once_witness :
    (market_order_menu ⟨"BTCUSDT", "buy", some (.num 1), .ok 50000, "y",
      .error "APIError(code=-2019): Margin is insufficient."⟩).submitCount = 1 ∧
    (limit_order_menu ⟨"BTCUSDT", "buy", some (.num 1), some (.num 30000), .ok 50000, "y",
      .error "APIError(code=-2019): Margin is insufficient."⟩).submitCount = 1 ∧
    (stop_limit_order_menu ⟨"BTCUSDT", "sell", some (.num 1), some (.num 40000),
      some (.num 39900), .ok 50000, "y", .error "ReadTimeout"⟩).submitCount = 1 :=
  C7_confirmed_submits_exactly_once
    ⟨"BTCUSDT", "buy", some (.num 1), .ok 50000, "y",
      .error "APIError(code=-2019): Margin is insufficient."⟩
    ⟨"BTCUSDT", "buy", some (.num 1), some (.num 30000), .ok 50000, "y",
      .error "APIError(code=-2019): Margin is insufficient."⟩
    ⟨"BTCUSDT", "sell", some (.num 1), some (.num 40000), some (.num 39900), .ok 50000, "y",
      .error "ReadTimeout"⟩
    "BTCUSDT" "BUY" "BTCUSDT" "BUY" "BTCUSDT" "SELL"
    (.num 1) (.num 1) (.num 1) (.num 30000) (.num 40000) (.num 39900) 50000 50000 50000
    rfl rfl (by decide) rfl rfl (by norm_num [PyFloat.le0]) rfl (by decide)
    rfl rfl rfl (by norm_num [PyFloat.le0]) rfl (by decide)


/-- C2: for every complete flag set with both environment credentials
present, the batch body of main evaluates args.api_key — an attribute the
parser never registers — so the run ends with the AttributeError printed,
zero submission calls and no confirmation prompt; the submit call is never
reached.  The concrete first conjunct evaluates the whole of main at a full
MARKET flag set. -/
theorem C2_batch_path_fails_at_credential_attributes :
    pyMain ⟨some "key", some "secret"⟩
        ⟨some "BTCUSDT", some "BUY", some "MARKET", some (.num 1), none, none⟩
        (.ok 50000) (.ok ⟨3, "NEW"⟩) =
      .batchRun ⟨[], .errorMsg "Namespace object has no attribute api_key"⟩ ∧
    (∀ b : BatchInput,
      (batchBody b).submitCount = 0 ∧
      Event.askConfirm ∉ (batchBody b).events ∧
      (batchBody b).outcome = .errorMsg "Namespace object has no attribute api_key") := by
  have hbb : ∀ b : BatchInput,
      batchBody b = ⟨[], .errorMsg "Namespace object has no attribute api_key"⟩ :=
    fun b => rfl
  refine ⟨rfl, fun b => ?_⟩
  rw [hbb b]
  exact ⟨rfl, by simp, rfl⟩

/-- C8 counterexample: with the BINANCE_API_KEY environment value unset and
a complete flag set, main does not terminate at startup — it launches the
interactive CLI, where an operator who enters nonblank credentials can then
run a full order workflow including a submission. -/
theorem C8_counterexample_missing_env_not_fatal :
    pyMain ⟨none, some "secret"⟩
        ⟨some "BTCUSDT", some "BUY", some "MARKET", some (.num 1), none, none⟩
        (.ok 50000) (.ok ⟨3, "NEW"⟩) = .interactive ∧
    Event.submitOrder (marketOrderParams "BTCUSDT" "BUY" (.num 1)) ∈
      main_menu "key" "secret"
        [.marketOrder ⟨"BTCUSDT", "BUY", some (.num 1), .ok 50000, "y", .ok ⟨3, "NEW"⟩⟩] :=
  ⟨rfl, by decide⟩

/-- C8 amended: the two environment values only select batch mode — if
either is unset, main falls back to the interactive CLI, which prompts for
credentials itself; there, a blank entered credential ends the menu loop at
startup with no exchange operation performed. -/
theorem C8_amended_env_credentials_select_mode_only
    (env : Env) (args : ArgsOpt) (pf : Except String ℚ) (sr : Except String OrderResult)
    (k s : String) (choices : List MenuChoice)
    (henv : env.api_key = none ∨ env.api_secret = none)
    (hks : pyStrip k = "" ∨ pyStrip s = "") :
    pyMain env args pf sr = .interactive ∧ main_menu k s choices = [] := by
  constructor
  · obtain ⟨ek, es⟩ := env
    rcases henv with h | h
    · have h2 : ek = none := h
      subst h2
      rfl
    · have h2 : es = none := h
      subst h2
      cases ek <;> rfl
  · rcases hks with h | h <;>
      simp [main_menu, setup_bot, h]

/-- Witness for C8 amended: unset key falls back to interactive mode, and a
blank interactively entered key runs no menu action. -/
theorem C8_amended_env_credentials_select_mode_only_witness :
    pyMain ⟨none, some "secret"⟩ ⟨none, none, none, none, none, none⟩
        (.ok 0) (.ok ⟨1, "NEW"⟩) = .interactive ∧
    main_menu " " "secret" [.viewAccount] = [] :=
  C8_amended_env_credentials_select_mode_only ⟨none, some "secret"⟩
    ⟨none, none, none, none, none, none⟩ (.ok 0) (.ok ⟨1, "NEW"⟩)
    " " "secret" [.viewAccount] (Or.inl rfl) (Or.inl (by decide))

/-- C3 counterexample: exchange metadata in which BTCUSDT has status BREAK
makes get_symbol_info fail, yet a confirmed interactive market order for
BTCUSDT is submitted and completes — the workflow never consults the
metadata. -/
theorem C3_counterexample_nontradable_symbol_submitted :
    get_symbol_info [⟨"BTCUSDT", "BREAK"⟩] "BTCUSDT" =
      .error "Symbol BTCUSDT is not available for trading" ∧
    (market_order_menu ⟨"BTCUSDT", "BUY", some (.num 1), .ok 50000, "y",
      .ok ⟨9, "NEW"⟩⟩).submitCount = 1 ∧
    (market_order_menu ⟨"BTCUSDT", "BUY", some (.num 1), .ok 50000, "y",
      .ok ⟨9, "NEW"⟩⟩).outcome = .completed ⟨9, "NEW"⟩ :=
  ⟨rfl, rfl, rfl⟩

/-- C3 amended: get_symbol_info does implement the tradability check — an
unknown symbol or a non-TRADING status yields the corresponding error — but
no order-placement workflow invokes it: whatever the metadata says, a
confirmed interactive market order that passed input validation and the
price fetch is submitted exactly once. -/
theorem C3_amended_symbol_check_never_invoked_by_workflows
    (syms1 syms2 : List SymbolInfo) (s1 s2 : String) (si : SymbolInfo)
    (h1 : syms1.find? (fun x => x.symbol == pyUpper s1) = none)
    (h2 : syms2.find? (fun x => x.symbol == pyUpper s2) = some si)
    (h3 : si.status ≠ "TRADING")
    (m : MarketMenuInput) (sym sd : String) (q : PyFloat) (r : ℚ)
    (hv : validate_inputs (pyStrip m.symbol) (pyStrip m.side) m.qtyParse = .ok (sym, sd, q))
    (hp : m.priceFetch = .ok r)
    (hc : pyLower (pyStrip m.confirm) = "y") :
    get_symbol_info syms1 s1 = .error ("Symbol " ++ s1 ++ " not found") ∧
    get_symbol_info syms2 s2 = .error ("Symbol " ++ s2 ++ " is not available for trading") ∧
    (market_order_menu m).submitCount = 1 := by
  refine ⟨?_, ?_, ?_⟩
  · simp [get_symbol_info, h1]
  · simp [get_symbol_info, h2, h3]
  · rw [market_menu_gate_run m sym sd q r hv hp, if_pos hc]
    simp [submitStep_count, Event.isSubmit]

/-- Witness for C3 amended at concrete metadata and a concrete confirmed
market order. -/
theorem C3_amended_symbol_check_never_invoked_by_workflows_witness :
    get_symbol_info [] "ETHUSDT" = .error ("Symbol " ++ "ETHUSDT" ++ " not found") ∧
    get_symbol_info [⟨"BTCUSDT", "BREAK"⟩] "BTCUSDT" =
      .error ("Symbol " ++ "BTCUSDT" ++ " is not available for trading") ∧
    (market_order_menu ⟨"btcusdt", "buy", some (.num 2), .ok 50000, " Y ",
      .ok ⟨4, "NEW"⟩⟩).submitCount = 1 :=
  C3_amended_symbol_check_never_invoked_by_workflows
    [] [⟨"BTCUSDT", "BREAK"⟩] "ETHUSDT" "BTCUSDT" ⟨"BTCUSDT", "BREAK"⟩
    rfl (by decide) (by decide)
    ⟨"btcusdt", "buy", some (.num 2), .ok 50000, " Y ", .ok ⟨4, "NEW"⟩⟩
    "BTCUSDT" "BUY" (.num 2) 50000 rfl rfl (by decide)

/-- C1 counterexample: the interactive stop-limit workflow performs no
directional check — a BUY stop-limit whose stop price 40000 lies at or
below the fetched reference price 50000 is confirmed and submitted rather
than rejected with a stop-direction error. -/
theorem C1_counterexample_interactive_buy_stop_below_reference :
    ((40000 : ℚ) ≤ 50000) ∧
    (stop_limit_order_menu ⟨"BTCUSDT", "BUY", some (.num 1), some (.num 40000),
      some (.num 39900), .ok 50000, "y", .ok ⟨1, "NEW"⟩⟩).submitCount = 1 ∧
    (stop_limit_order_menu ⟨"BTCUSDT", "BUY", some (.num 1), some (.num 40000),
      some (.num 39900), .ok 50000, "y", .ok ⟨1, "NEW"⟩⟩).outcome = .completed ⟨1, "NEW"⟩ :=
  ⟨by norm_num, rfl, rfl⟩

/-- C1 amended: only the batch order dispatch (the post-initialization part
of the flag-driven path) checks stop direction: there, a BUY stop at or
below the fetched reference, or a SELL stop at or above it, prints the
directional message and returns with zero submission calls; the interactive
stop-limit workflow performs no directional check, so a confirmed BUY order
with a violating stop price is still submitted exactly once. -/
theorem C1_amended_stop_direction_checked_only_in_batch_dispatch
    (b : BatchInput) (p sp ref : ℚ)
    (hbty : b.orderKind = "STOP_LIMIT")
    (hbp : b.price = some (.num p)) (hbp0 : ¬p = 0)
    (hbs : b.stop_price = some (.num sp)) (hbs0 : ¬sp = 0)
    (hbf : b.priceFetch = .ok ref)
    (hdir : (b.side = "BUY" ∧ sp ≤ ref) ∨ (b.side = "SELL" ∧ ref ≤ sp))
    (i : StopLimitMenuInput) (sym : String) (q : PyFloat) (isp ilp iref : ℚ)
    (hv : validate_inputs (pyStrip i.symbol) (pyStrip i.side) i.qtyParse = .ok (sym, "BUY", q))
    (hisp : i.stopParse = some (.num isp)) (hilp : i.limitParse = some (.num ilp))
    (hpos : ¬(isp ≤ 0 ∨ ilp ≤ 0))
    (hif : i.priceFetch = .ok iref)
    (hidir : isp ≤ iref)
    (hic : pyLower (pyStrip i.confirm) = "y") :
    (batchOrderDispatch b).submitCount = 0 ∧
    ((batchOrderDispatch b).outcome =
        .abortMsg "Stop price must be ABOVE current price for a BUY stop-limit order" ∨
      (batchOrderDispatch b).outcome =
        .abortMsg "Stop price must be BELOW current price for a SELL stop-limit order") ∧
    (stop_limit_order_menu i).submitCount = 1 := by
  refine ⟨?_, ?_, ?_⟩
  · rcases hdir with ⟨hside, hle⟩ | ⟨hside, hge⟩
    · simp [batchOrderDispatch, hbty, hbp, hbs, hbf, hbp0, hbs0, hside, hle,
        PyFloat.truthy, PyFloat.le, MenuRun.submitCount, Event.isSubmit]
    · simp [batchOrderDispatch, hbty, hbp, hbs, hbf, hbp0, hbs0, hside, hge,
        PyFloat.truthy, PyFloat.le, PyFloat.ge, MenuRun.submitCount, Event.isSubmit]
  · rcases hdir with ⟨hside, hle⟩ | ⟨hside, hge⟩
    · simp [batchOrderDispatch, hbty, hbp, hbs, hbf, hbp0, hbs0, hside, hle,
        PyFloat.truthy, PyFloat.le]
    · simp [batchOrderDispatch, hbty, hbp, hbs, hbf, hbp0, hbs0, hside, hge,
        PyFloat.truthy, PyFloat.le, PyFloat.ge]
  · have hposb : ¬(PyFloat.le0 (.num isp) || PyFloat.le0 (.num ilp)) = true := by
      simpa [PyFloat.le0] using hpos
    rw [stop_limit_menu_gate_run i sym "BUY" q (.num isp) (.num ilp) iref
        hv hisp hilp hposb hif, if_pos hic]
    simp [submitStep_count, Event.isSubmit]

/-- Witness for C1 amended: a violating BUY stop-limit flag set aborts in
the batch dispatch, while the same violating order is submitted by the
interactive menu. -/
theorem C1_amended_stop_direction_checked_only_in_batch_dispatch_witness :
    (batchOrderDispatch ⟨"BTCUSDT", "BUY", "STOP_LIMIT", .num 1, some (.num 39900),
      some (.num 40000), .ok 50000, .ok ⟨1, "NEW"⟩⟩).submitCount = 0 ∧
    ((batchOrderDispatch ⟨"BTCUSDT", "BUY", "STOP_LIMIT", .num 1, some (.num 39900),
        some (.num 40000), .ok 50000, .ok ⟨1, "NEW"⟩⟩).outcome =
        .abortMsg "Stop price must be ABOVE current price for a BUY stop-limit order" ∨
      (batchOrderDispatch ⟨"BTCUSDT", "BUY", "STOP_LIMIT", .num 1, some (.num 39900),
        some (.num 40000), .ok 50000, .ok ⟨1, "NEW"⟩⟩).outcome =
        .abortMsg "Stop price must be BELOW current price for a SELL stop-limit order") ∧
    (stop_limit_order_menu ⟨"BTCUSDT", "BUY", some (.num 1), some (.num 40000),
      some (.num 39900), .ok 50000, "y", .ok ⟨2, "NEW"⟩⟩).submitCount = 1 :=
  C1_amended_stop_direction_checked_only_in_batch_dispatch
    ⟨"BTCUSDT", "BUY", "STOP_LIMIT", .num 1, some (.num 39900), some (.num 40000),
      .ok 50000, .ok ⟨1, "NEW"⟩⟩
    39900 40000 50000 rfl rfl (by norm_num) rfl (by norm_num) rfl
    (Or.inl ⟨rfl, by norm_num⟩)
    ⟨"BTCUSDT", "BUY", some (.num 1), some (.num 40000), some (.num 39900), .ok 50000,
      "y", .ok ⟨2, "NEW"⟩⟩
    "BTCUSDT" (.num 1) 40000 39900 50000 rfl rfl rfl (by norm_num) rfl
    (by norm_num) (by decide)


/-- C4 counterexample: two refutations of the claim as stated.  In batch
mode the quantity value -1 parses but is not positive, yet no quantity
error is produced — the run fails with the credential attribute error and
nothing is submitted.  In the interactive market workflow the quantity text
nan parses to the IEEE nan value, which is not a strictly positive decimal
either, yet validation raises no error (nan compared with 0 is False in
Python) and the confirmed order is submitted with a nan quantity. -/
theorem C4_counterexample_batch_negative_and_interactive_nan :
    pyMain ⟨some "key", some "secret"⟩
        ⟨some "BTCUSDT", some "BUY", some "MARKET", some (.num (-1)), none, none⟩
        (.ok 50000) (.ok ⟨3, "NEW"⟩) =
      .batchRun ⟨[], .errorMsg "Namespace object has no attribute api_key"⟩ ∧
    Outcome.errorMsg "Namespace object has no attribute api_key" ≠
      Outcome.errorMsg "Invalid quantity format" ∧
    market_order_menu ⟨"BTCUSDT", "BUY", some .nan, .ok 50000, "y", .ok ⟨5, "NEW"⟩⟩ =
      ⟨[.getPrice "BTCUSDT", .askConfirm,
          .submitOrder (marketOrderParams "BTCUSDT" "BUY" .nan)],
        .completed ⟨5, "NEW"⟩⟩ :=
  ⟨rfl, by decide, rfl⟩

/-- C4 amended: in interactive workflows, a quantity or price text that
fails to parse as a float, or parses to a value for which the Python guard
`<= 0` is True, yields the corresponding format error and zero submission
calls; but the texts nan and inf, which do not parse as strictly positive
decimals either, pass the guard (IEEE comparisons with nan are False) and a
confirmed order is then submitted with that value.  In the batch path,
non-numeric flag texts are rejected by argparse before the logic of main
runs, while a numeric non-positive quantity passes the truthiness gate
unchecked (zero is falsy and drops to the interactive menu): no quantity
error is produced there, and submission is prevented only because the
batch body fails at the undefined credential attributes. -/
theorem C4_amended_nonpositive_numeric_texts
    (m m2 n : MarketMenuInput) (l : LimitMenuInput) (sl : StopLimitMenuInput)
    (lv slv : String × String × PyFloat) (nr : ℚ)
    (env : Env) (args : ArgsOpt) (pf : Except String ℚ) (sr : Except String OrderResult)
    (k0 s0 sym0 sd0 ty0 : String) (q : ℚ)
    (hmq : m.qtyParse = none ∨ ∃ q0, m.qtyParse = some (.num q0) ∧ q0 ≤ 0)
    (hmsym : pyStrip m.symbol ≠ "")
    (hmside : pyUpper (pyStrip m.side) = "BUY" ∨ pyUpper (pyStrip m.side) = "SELL")
    (hm2q : m2.qtyParse = none ∨ ∃ q0, m2.qtyParse = some (.num q0) ∧ q0 ≤ 0)
    (hnsym : pyStrip n.symbol ≠ "")
    (hnside : pyUpper (pyStrip n.side) = "BUY" ∨ pyUpper (pyStrip n.side) = "SELL")
    (hnq : n.qtyParse = some .nan)
    (hnf : n.priceFetch = .ok nr)
    (hnc : pyLower (pyStrip n.confirm) = "y")
    (hlv : validate_inputs (pyStrip l.symbol) (pyStrip l.side) l.qtyParse = .ok lv)
    (hlp : l.priceParse = none ∨ ∃ p0, l.priceParse = some (.num p0) ∧ p0 ≤ 0)
    (hslv : validate_inputs (pyStrip sl.symbol) (pyStrip sl.side) sl.qtyParse = .ok slv)
    (hslp : sl.stopParse = none ∨ (∃ p0, sl.stopParse = some (.num p0) ∧ p0 ≤ 0) ∨
      sl.limitParse = none ∨ (∃ p0, sl.limitParse = some (.num p0) ∧ p0 ≤ 0))
    (hek : env.api_key = some k0) (hes : env.api_secret = some s0)
    (hsym : args.symbol = some sym0) (hsd : args.side = some sd0)
    (hty : args.orderKind = some ty0) (hq : args.quantity = some (.num q))
    (htr : k0 ≠ "" ∧ s0 ≠ "" ∧ sym0 ≠ "" ∧ sd0 ≠ "" ∧ ty0 ≠ "" ∧ q ≠ 0)
    (hqle : q ≤ 0) :
    market_order_menu m = ⟨[], .errorMsg "Invalid quantity format"⟩ ∧
    (market_order_menu m2).submitCount = 0 ∧
    (market_order_menu n).submitCount = 1 ∧
    limit_order_menu l = ⟨[], .errorMsg "Invalid price format"⟩ ∧
    stop_limit_order_menu sl = ⟨[], .errorMsg "Invalid price format"⟩ ∧
    pyMain env args pf sr =
      .batchRun ⟨[], .errorMsg "Namespace object has no attribute api_key"⟩ ∧
    Outcome.errorMsg "Namespace object has no attribute api_key" ≠
      .errorMsg "Invalid quantity format" := by
  obtain ⟨la, lb, lc⟩ := lv
  obtain ⟨sa, sb, sc⟩ := slv
  refine ⟨?_, ?_, ?_, ?_, ?_, ?_, by decide⟩
  · rcases hmq with h | ⟨q0, hq0, hq0le⟩
    · simp [market_order_menu, validate_inputs, hmsym, hmside, h]
    · simp [market_order_menu, validate_inputs, hmsym, hmside, hq0, PyFloat.le0, hq0le]
  · cases hval : validate_inputs (pyStrip m2.symbol) (pyStrip m2.side) m2.qtyParse with
    | error e => simp [market_order_menu, hval, MenuRun.submitCount]
    | ok v =>
      exfalso
      obtain ⟨qf, hqf, hqfle⟩ := validate_inputs_ok_qty _ _ _ _ hval
      rcases hm2q with h | ⟨q1, hq1, hq1le⟩
      · rw [h] at hqf
        exact absurd hqf (by simp)
      · rw [hq1] at hqf
        have hq1f : PyFloat.num q1 = qf := by injection hqf
        rw [← hq1f] at hqfle
        simp [PyFloat.le0, hq1le] at hqfle
  · have hnv : validate_inputs (pyStrip n.symbol) (pyStrip n.side) n.qtyParse =
        .ok (pyUpper (pyStrip n.symbol), pyUpper (pyStrip n.side), PyFloat.nan) := by
      simp [validate_inputs, hnsym, hnside, hnq, PyFloat.le0]
    rw [market_menu_gate_run n (pyUpper (pyStrip n.symbol)) (pyUpper (pyStrip n.side))
        PyFloat.nan nr hnv hnf, if_pos hnc]
    simp [submitStep_count, Event.isSubmit]
  · rcases hlp with h | ⟨p0, hp0, hp0le⟩
    · simp [limit_order_menu, hlv, h]
    · simp [limit_order_menu, hlv, hp0, PyFloat.le0, hp0le]
  · rcases hslp with h | ⟨p0, hp0, hp0le⟩ | h | ⟨p0, hp0, hp0le⟩
    · simp [stop_limit_order_menu, hslv, h]
    · cases hlim : sl.limitParse with
      | none => simp [stop_limit_order_menu, hslv, hp0, hlim]
      | some lp0 => simp [stop_limit_order_menu, hslv, hp0, hlim, PyFloat.le0, hp0le]
    · cases hstop : sl.stopParse with
      | none => simp [stop_limit_order_menu, hslv, hstop]
      | some sp0 => simp [stop_limit_order_menu, hslv, hstop, h]
    · cases hstop : sl.stopParse with
      | none => simp [stop_limit_order_menu, hslv, hstop]
      | some sp0 => simp [stop_limit_order_menu, hslv, hstop, hp0, PyFloat.le0, hp0le]
  · obtain ⟨ek, es⟩ := env
    obtain ⟨a1, a2, a3, a4, a5, a6⟩ := args
    have hek2 : ek = some k0 := hek
    have hes2 : es = some s0 := hes
    have ha1 : a1 = some sym0 := hsym
    have ha2 : a2 = some sd0 := hsd
    have ha3 : a3 = some ty0 := hty
    have ha4 : a4 = some (.num q) := hq
    subst hek2 hes2 ha1 ha2 ha3 ha4
    simp only [pyMain]
    rw [if_pos ⟨htr.1, htr.2.1, htr.2.2.1, htr.2.2.2.1, htr.2.2.2.2.1, by
      simp [PyFloat.truthy, htr.2.2.2.2.2]⟩]
    rfl

/-- Witness for C4 amended: an unparseable quantity, a negative quantity, a
nan quantity that is submitted, a negative limit price, an unparseable stop
price, and a batch run with quantity -1. -/
theorem C4_amended_nonpositive_numeric_texts_witness :
    market_order_menu ⟨"BTCUSDT", "buy", none, .ok 1, "y", .ok ⟨1, "NEW"⟩⟩ =
      ⟨[], .errorMsg "Invalid quantity format"⟩ ∧
    (market_order_menu ⟨"", "buy", some (.num (-2)), .ok 1, "y",
      .ok ⟨1, "NEW"⟩⟩).submitCount = 0 ∧
    (market_order_menu ⟨"BTCUSDT", "BUY", some .nan, .ok 50000, "y",
      .ok ⟨6, "NEW"⟩⟩).submitCount = 1 ∧
    limit_order_menu ⟨"BTCUSDT", "sell", some (.num 1), some (.num (-5)), .ok 1, "y",
      .ok ⟨1, "NEW"⟩⟩ = ⟨[], .errorMsg "Invalid price format"⟩ ∧
    stop_limit_order_menu ⟨"BTCUSDT", "sell", some (.num 1), none, some (.num 5), .ok 1, "y",
      .ok ⟨1, "NEW"⟩⟩ = ⟨[], .errorMsg "Invalid price format"⟩ ∧
    pyMain ⟨some "key", some "secret"⟩
        ⟨some "BTCUSDT", some "BUY", some "MARKET", some (.num (-1)), none, none⟩
        (.ok 1) (.ok ⟨1, "NEW"⟩) =
      .batchRun ⟨[], .errorMsg "Namespace object has no attribute api_key"⟩ ∧
    Outcome.errorMsg "Namespace object has no attribute api_key" ≠
      .errorMsg "Invalid quantity format" :=
  C4_amended_nonpositive_numeric_texts
    ⟨"BTCUSDT", "buy", none, .ok 1, "y", .ok ⟨1, "NEW"⟩⟩
    ⟨"", "buy", some (.num (-2)), .ok 1, "y", .ok ⟨1, "NEW"⟩⟩
    ⟨"BTCUSDT", "BUY", some .nan, .ok 50000, "y", .ok ⟨6, "NEW"⟩⟩
    ⟨"BTCUSDT", "sell", some (.num 1), some (.num (-5)), .ok 1, "y", .ok ⟨1, "NEW"⟩⟩
    ⟨"BTCUSDT", "sell", some (.num 1), none, some (.num 5), .ok 1, "y", .ok ⟨1, "NEW"⟩⟩
    ("BTCUSDT", "SELL", .num 1) ("BTCUSDT", "SELL", .num 1) 50000
    ⟨some "key", some "secret"⟩
    ⟨some "BTCUSDT", some "BUY", some "MARKET", some (.num (-1)), none, none⟩
    (.ok 1) (.ok ⟨1, "NEW"⟩)
    "key" "secret" "BTCUSDT" "BUY" "MARKET" (-1)
    (Or.inl rfl) (by decide) (Or.inl (by decide))
    (Or.inr ⟨-2, rfl, by norm_num⟩)
    (by decide) (Or.inl (by decide)) rfl rfl (by decide)
    rfl (Or.inr ⟨-5, rfl, by norm_num⟩)
    rfl (Or.inl rfl)
    rfl rfl rfl rfl rfl rfl
    ⟨by decide, by decide, by decide, by decide, by decide, by norm_num⟩
    (by norm_num)

end TradingBot
